import Mathlib

/-!
Shallow embedding of `src/instrument/connection/connection.ts` (class
`Connection`): the connection state machine, the byte-stream framing and
coalescing logic, the identification handshake, the long-operation
sub-protocol and the command-send discipline.

Byte strings are modelled as `List Char`.  Each method of the class becomes a
function `Conn → Conn × List Event`, where the event list is the ordered trace
of observable calls the method performs (transport writes, activity-log
records, value deliveries, line dispatches, local faults).  Timer ids
(`dataTimeoutId`, `idnExpectedTimeout`, `housekeepingIntervalId`) are modelled
as pending/armed flags; firing a pending one-shot timer is a function applied
to the state.

External collaborators that are not part of the excerpted source are
parameters of the model: the SCPI value parser (`parse : Str → ScpiValue`),
the `FileUpload` constructor (`mkUpload : Str → LongOperation`) and the active
long operation's `onData` (`opOnData : LongOperation → Str → LongOperation`).
-/

/-- Byte strings of the protocol, as lists of characters. -/
abbrev Str := List Char

/-- Conversion from string literals. -/
def str (s : String) : Str := s.toList

/-- The `ConnectionState` enum from the source. -/
inductive ConnectionState
  | IDLE
  | CONNECTING
  | CONNECTED
  | DISCONNECTING
deriving DecidableEq, Repr

/-- Modelled from the spec: the error taxonomy of the design (`NONE` plus
transport/protocol/operational failure codes).  The enum declaration lives in
`instrument/connection/interface.ts`, which is not among the excerpted files;
the excerpted code references only `NONE`, so all other codes are collapsed
into one abstract non-NONE constructor carrying a numeric tag. -/
inductive ConnectionErrorCode
  | NONE
  | CODE (n : Nat)
deriving DecidableEq, Repr

/-- Modelled from the spec: the result of the external value-parsing
collaborator (`parseScpiValue`, defined in `instrument/scpi`, not among the
excerpted files): a parsed value is a string or some non-string typed value.
The source only ever discriminates `typeof value !== "string"`. -/
inductive ScpiValue
  | string (s : Str)
  | nonString
deriving DecidableEq, Repr

/-- Discrimination used by `send` and `startLongOperation`: the source tests
`this.longOperation instanceof FileUpload || this.longOperation instanceof
FileDownload`.  The kind tag records which concrete class the operation is. -/
inductive LongOpKind
  | fileUpload
  | fileDownload
  | other
deriving DecidableEq, Repr

/-- The `LongOperation` interface of the source (`isDone()` as `done`,
`dataSurplus`, and the abort flag set by `abort()`).  `logId`/`logEntry` are
irrelevant to the claims and omitted; `onData` is an external parameter of the
model (the concrete classes are not among the excerpted files). -/
structure LongOperation where
  kind : LongOpKind
  done : Bool
  dataSurplus : Option Str
  aborted : Bool
deriving DecidableEq, Repr

/-- Modelled from the spec: `abort()` of the concrete `FileUpload` /
`FileDownload` classes is not among the excerpted files.  The spec gives the
operation an `isDone`/`abort` contract of its own and makes the Connection the
owner that destroys the operation (`Connection.flushData` clears
`this.longOperation` itself right after calling `abort()`), so the model lets
`abort()` mutate only the operation's own state. -/
def LongOperation.abort (op : LongOperation) : LongOperation :=
  { op with aborted := true }

/-- Transport selection in `connect()`: ethernet vs serial. -/
inductive TransportKind
  | ethernet
  | serial
deriving DecidableEq, Repr

/-- The `options` argument of `send`.  In the source both fields are optional
booleans; an absent field is falsy, so it is modelled as `false`. -/
structure SendOptions where
  log : Bool
  longOperation : Bool
deriving DecidableEq, Repr

/-- Payload of a `sendValue` call: the parsed value of a received line, or the
`{ logEntry }` object sent by `longOperationDone`. -/
inductive Val
  | parsed (v : ScpiValue)
  | doneEntry
deriving DecidableEq, Repr

/-- Observable events of a method call, in order of occurrence.
`requestLine`/`answerLine` record the calls to `logRequest`/`logAnswer` (the
request/answer sinks); `logRequest`/`logAnswer` record the activity-log
entries those sinks actually write, which happens only while `traceEnabled`.
`lineReceived` records the completed-line dispatch, i.e. a call to
`onDataLineReceived`. -/
inductive Event
  | requestLine (d : Str)
  | logRequest (d : Str)
  | answerLine (d : Str)
  | logAnswer (d : Str)
  | lineReceived (d : Str)
  | sendValue (v : Val)
  | setIdn (d : Str)
  | write (d : Str)
  | newTransport (k : TransportKind)
  | transportConnect
  | transportDisconnect
  | opAbort
  | localFault
deriving DecidableEq, Repr

/-- The mutable fields of class `Connection` that the excerpted methods read
or write.  `communicationInterface` is modelled as a presence flag (writes to
it appear as `write` events); the three timer-id fields are modelled as
pending flags. -/
structure Conn where
  state : ConnectionState
  errorCode : ConnectionErrorCode
  error : Option Str
  communicationInterface : Bool
  wasConnected : Bool
  data : Option Str
  idnExpected : Bool
  idnTimeoutPending : Bool
  dataTimeoutPending : Bool
  longOperation : Option LongOperation
  housekeepingOn : Bool
  callbackWindowId : Option Nat
  traceEnabled : Bool
deriving DecidableEq, Repr

/-- Field values set by the constructor / declaration initializers. -/
def initialConn : Conn :=
  { state := .IDLE
    errorCode := .NONE
    error := none
    communicationInterface := false
    wasConnected := false
    data := none
    idnExpected := false
    idnTimeoutPending := false
    dataTimeoutPending := false
    longOperation := none
    housekeepingOn := false
    callbackWindowId := none
    traceEnabled := true }

/-- The frame buffer's contents (`[]` when `this.data` is undefined). -/
def bufOf (c : Conn) : Str := c.data.getD []

namespace Conn

/-- `logRequest(data)`: the call itself, plus the activity-log record when
tracing is enabled. -/
def logRequestEvents (c : Conn) (d : Str) : List Event :=
  .requestLine d :: (if c.traceEnabled then [.logRequest d] else [])

/-- `logAnswer(data)`: the call itself, plus the activity-log record when
tracing is enabled. -/
def logAnswerEvents (c : Conn) (d : Str) : List Event :=
  .answerLine d :: (if c.traceEnabled then [.logAnswer d] else [])

/-- `sendValue(value)`: sends to the callback window only when
`this.callbackWindowId` is truthy (defined and non-zero). -/
def sendValueEvents (c : Conn) (v : Val) : List Event :=
  match c.callbackWindowId with
  | some n => if n ≠ 0 then [.sendValue v] else []
  | none => []

/-- `connect()`.  The transport kind stands for
`this.instrument.lastConnection.type`. -/
def connect (kind : TransportKind) (c : Conn) : Conn × List Event :=
  if c.state ≠ .IDLE then
    (c, [.localFault])
  else
    ({ c with
        state := .CONNECTING
        errorCode := .NONE
        error := none
        communicationInterface := true },
      [.newTransport kind, .transportConnect])

/-- `disconnect()`. -/
def disconnect (c : Conn) : Conn × List Event :=
  if c.state = .IDLE ∨ c.communicationInterface = false then
    (c, [.localFault])
  else
    ({ c with state := .DISCONNECTING }, [.transportDisconnect])

/-- `onDataLineReceived(data)`: the completed-line dispatch.  Logs the answer,
parses it, delivers the value, and handles the pending identification
handshake. -/
def onDataLineReceived (parse : Str → ScpiValue) (c : Conn) (d : Str) :
    Conn × List Event :=
  let evs := Event.lineReceived d :: c.logAnswerEvents d
      ++ c.sendValueEvents (.parsed (parse d))
  if c.idnExpected then
    let c1 : Conn := { c with idnTimeoutPending := false, idnExpected := false }
    match parse d with
    | .string s => (c1, evs ++ [.setIdn s])
    | .nonString =>
        let c2 : Conn :=
          { c1 with errorCode := .NONE, error := some (str "Invalid IDN value.") }
        let r := c2.disconnect
        (r.1, evs ++ r.2)
  else
    (c, evs)

/-- `flushData()`: abort and drop any long operation, cancel the coalescing
timer, and log any truthy (non-empty) buffered data as an answer. -/
def flushData (c : Conn) : Conn × List Event :=
  let p := match c.longOperation with
    | some _ => (({ c with longOperation := none } : Conn), [Event.opAbort])
    | none => (c, [])
  let c1 : Conn := { p.1 with dataTimeoutPending := false }
  match c1.data with
  | some d =>
      if d ≠ [] then (({ c1 with data := none } : Conn), p.2 ++ c1.logAnswerEvents d)
      else (c1, p.2)
  | none => (c1, p.2)

/-- `longOperationDone()`: deliver `{ logEntry }` and clear the operation. -/
def longOperationDone (c : Conn) : Conn × List Event :=
  (({ c with longOperation := none } : Conn), c.sendValueEvents .doneEntry)

/-- `housekeeping()`: if the active long operation reports done, capture its
surplus, run `longOperationDone`, and store the surplus into `this.data`. -/
def housekeeping (c : Conn) : Conn × List Event :=
  match c.longOperation with
  | some op =>
      if op.done then
        let r := c.longOperationDone
        (({ r.1 with data := op.dataSurplus } : Conn), r.2)
      else (c, [])
  | none => (c, [])

/-- Index of the first `'\n'` in a byte string (`indexOf("\n")`). -/
def idxNl : Str → Option Nat
  | [] => none
  | ch :: rest => if ch = '\n' then some 0 else (idxNl rest).map (· + 1)

/-- The closing step of `onData`: `if (this.data !== undefined)` arm the
coalescing timer. -/
def armIfData (r : Conn × List Event) : Conn × List Event :=
  if r.1.data ≠ none then
    (({ r.1 with dataTimeoutPending := true } : Conn), r.2)
  else
    r

/-- The tail of `onData` below the long-operation block: append the chunk to
the buffer (`this.data = (this.data ?? "") + data`), extract everything up to
and including the first terminator as a completed line, retain the remainder,
and arm the coalescing timer while the buffer is defined. -/
def onDataAppend (parse : Str → ScpiValue) (c : Conn) (d : Str) :
    Conn × List Event :=
  let buf : Str := bufOf c ++ d
  let c1 : Conn := { c with data := some buf }
  armIfData <|
    match idxNl buf with
    | some i =>
        let line := buf.take (i + 1)
        let rest := buf.drop (i + 1)
        let c2 : Conn :=
          { c1 with data := if rest = [] then none else some rest }
        c2.onDataLineReceived parse line
    | none => (c1, [])

/-- `onData(data)`: cancel the coalescing timer; route the chunk to the
active long operation, or start a `FileUpload` when the buffer is undefined
and the chunk begins with `'#'`; if the (possibly new) operation reports done,
finish it and re-process its surplus, else fall through to the framing tail. -/
def onData (mkUpload : Str → LongOperation)
    (opOnData : LongOperation → Str → LongOperation)
    (parse : Str → ScpiValue) (c : Conn) (d : Str) : Conn × List Event :=
  let c1 : Conn := { c with dataTimeoutPending := false }
  let c2 : Conn :=
    match c1.longOperation with
    | some op => { c1 with longOperation := some (opOnData op d) }
    | none =>
        if c1.data = none ∧ d.head? = some '#' then
          { c1 with longOperation := some (mkUpload d) }
        else c1
  match c2.longOperation with
  | some op =>
      if op.done then
        let r := c2.longOperationDone
        match op.dataSurplus with
        | none => r
        | some surplus =>
            let r2 := r.1.onDataAppend parse surplus
            (r2.1, r.2 ++ r2.2)
      else (c2, [])
  | none => c2.onDataAppend parse d

/-- `send(command, options)`. -/
def send (c : Conn) (command : Str) (options : Option SendOptions) :
    Conn × List Event :=
  let evs1 :=
    if options = none ∨ (∃ o, options = some o ∧ o.log = true) then
      c.logRequestEvents command
    else []
  if c.state ≠ .CONNECTED ∨ c.communicationInterface = false then
    (c, evs1 ++ c.logAnswerEvents (str "**ERROR: not connected\n"))
  else if (options = none ∨ (∃ o, options = some o ∧ o.longOperation = false))
      ∧ c.longOperation ≠ none then
    match c.longOperation with
    | some op =>
        if op.kind = .fileUpload ∨ op.kind = .fileDownload then
          (c, evs1 ++ c.logAnswerEvents (str "**ERROR: file transfer in progress\n"))
        else
          (c, evs1 ++ c.logAnswerEvents (str "**ERROR: another operation in progress\n"))
    | none => (c, evs1)
  else
    (({ c with errorCode := .NONE, error := none } : Conn),
      evs1 ++ [.write (command ++ str "\n")])

/-- `sendIdn()`: guard on state and transport, send `*IDN?`, flush, mark the
identification expected and arm the one-shot identification timeout. -/
def sendIdn (c : Conn) : Conn × List Event :=
  if c.state ≠ .CONNECTED then (c, [.localFault])
  else if c.communicationInterface = false then (c, [.localFault])
  else
    let r1 := c.send (str "*IDN?") none
    let r2 := r1.1.flushData
    (({ r2.1 with idnExpected := true, idnTimeoutPending := true } : Conn),
      r1.2 ++ r2.2)

/-- The body of the one-shot timeout armed by `sendIdn` (fires only while
pending; once fired it is no longer pending): set the timeout error and
disconnect. -/
def idnTimeoutFire (c : Conn) : Conn × List Event :=
  let c1 : Conn :=
    { c with
        idnTimeoutPending := false
        errorCode := .NONE
        error := some (str "Timeout (no response to IDN query).") }
  c1.disconnect

/-- `startLongOperation(createLongOperation)`: `op` is the operation the
thunk would create; a thrown string becomes `Except.error`. -/
def startLongOperation (c : Conn) (op : LongOperation) : Except Str Conn :=
  if c.state ≠ .CONNECTED ∨ c.communicationInterface = false then
    .error (str "not connected")
  else
    match c.longOperation with
    | some cur =>
        if cur.kind = .fileUpload ∨ cur.kind = .fileDownload then
          .error (str "file transfer in progress")
        else
          .error (str "another operation in progress")
    | none => .ok { c with longOperation := some op }

/-- `download(instructions)`: `op` is the `FileDownload` the instructions
would construct; a thrown error is logged as a synthetic answer line. -/
def download (c : Conn) (op : LongOperation) : Conn × List Event :=
  match c.startLongOperation op with
  | .ok c1 => (c1, [])
  | .error err =>
      (c, c.logAnswerEvents (str "**ERROR: " ++ err ++ str "\n"))

/-- `abortLongOperation()`. -/
def abortLongOperation (c : Conn) : Conn × List Event :=
  match c.longOperation with
  | some op => (({ c with longOperation := some op.abort } : Conn), [.opAbort])
  | none => (c, [])

/-- `acquire(callbackWindowId, traceEnabled)`. -/
def acquire (c : Conn) (callbackWindowId : Nat) (traceEnabled : Bool) :
    Conn × Option Str :=
  if c.state ≠ .CONNECTED then (c, some (str "not connected"))
  else
    ({ c with
        callbackWindowId := some callbackWindowId
        traceEnabled := traceEnabled }, none)

/-- `release()`. -/
def release (c : Conn) : Conn :=
  { c with callbackWindowId := none, traceEnabled := true }

end Conn

/-- Deliver a sequence of chunks to `onData`, concatenating the traces. -/
def runChunks (mkUpload : Str → LongOperation)
    (opOnData : LongOperation → Str → LongOperation)
    (parse : Str → ScpiValue) (c : Conn) : List Str → Conn × List Event
  | [] => (c, [])
  | d :: ds =>
      let r := c.onData mkUpload opOnData parse d
      let r2 := runChunks mkUpload opOnData parse r.1 ds
      (r2.1, r.2 ++ r2.2)

/-- A chunk sequence never triggers the `FileUpload` creation branch of
`onData` (no chunk begins with `'#'` while the buffer is undefined); this is
the precise condition under which a run that starts with no long operation
keeps having none. -/
def safeChunks (mkUpload : Str → LongOperation)
    (opOnData : LongOperation → Str → LongOperation)
    (parse : Str → ScpiValue) (c : Conn) : List Str → Bool
  | [] => true
  | d :: ds =>
      !(c.data = none ∧ d.head? = some '#' : Bool) &&
        safeChunks mkUpload opOnData parse
          (c.onData mkUpload opOnData parse d).1 ds

/-- The completed lines dispatched in a trace (payloads of `lineReceived`). -/
def linesOf (evs : List Event) : List Str :=
  evs.filterMap fun e => match e with
    | .lineReceived d => some d
    | _ => none


/-- Test fixture: a parser that classifies every line as a string value. -/
def parseAsString : Str → ScpiValue := fun s => .string s

/-- Test fixture: a `FileUpload` constructor whose result is never done. -/
def mkUploadStub : Str → LongOperation := fun _ => ⟨.fileUpload, false, none, false⟩

/-- Test fixture: a long-operation `onData` that ignores its input. -/
def opOnDataStub : LongOperation → Str → LongOperation := fun op _ => op

/-- Test fixture: a connection in the `CONNECTED` state with a live
transport. -/
def connectedConn : Conn :=
  { initialConn with state := .CONNECTED, communicationInterface := true }

/-- Test fixture: a connected connection holding a done `FileUpload` whose
surplus is the terminated line `"OK\n"`. -/
def doneUploadConn : Conn :=
  { connectedConn with
      longOperation := some ⟨.fileUpload, true, some (str "OK\n"), false⟩ }

/-! ## Helper lemmas -/

theorem linesOf_nil : linesOf [] = [] := rfl

theorem linesOf_append (a b : List Event) :
    linesOf (a ++ b) = linesOf a ++ linesOf b := by
  simp [linesOf, List.filterMap_append]

theorem linesOf_cons (e : Event) (evs : List Event) :
    linesOf (e :: evs)
      = (match e with | .lineReceived d => [d] | _ => []) ++ linesOf evs := by
  cases e <;> simp [linesOf]

theorem linesOf_logAnswerEvents (c : Conn) (d : Str) :
    linesOf (c.logAnswerEvents d) = [] := by
  unfold Conn.logAnswerEvents
  split <;> simp [linesOf]

theorem linesOf_logRequestEvents (c : Conn) (d : Str) :
    linesOf (c.logRequestEvents d) = [] := by
  unfold Conn.logRequestEvents
  split <;> simp [linesOf]

theorem linesOf_sendValueEvents (c : Conn) (v : Val) :
    linesOf (c.sendValueEvents v) = [] := by
  unfold Conn.sendValueEvents
  rcases c.callbackWindowId with _ | n
  · simp [linesOf]
  · split <;> simp [linesOf]

theorem disconnect_data (c : Conn) : (c.disconnect).1.data = c.data := by
  unfold Conn.disconnect
  split <;> simp

theorem disconnect_longOp (c : Conn) :
    (c.disconnect).1.longOperation = c.longOperation := by
  unfold Conn.disconnect
  split <;> simp

theorem linesOf_disconnect (c : Conn) : linesOf (c.disconnect).2 = [] := by
  unfold Conn.disconnect
  split <;> simp [linesOf]

theorem onDataLineReceived_fields (parse : Str → ScpiValue) (c : Conn) (d : Str) :
    (c.onDataLineReceived parse d).1.data = c.data ∧
    (c.onDataLineReceived parse d).1.longOperation = c.longOperation ∧
    linesOf (c.onDataLineReceived parse d).2 = [d] := by
  unfold Conn.onDataLineReceived
  rcases hidn : c.idnExpected
  · simp [linesOf_cons, linesOf_append, linesOf_logAnswerEvents,
      linesOf_sendValueEvents, linesOf_nil]
  · rcases hp : parse d with s | _
    · simp [linesOf_cons, linesOf_append, linesOf_logAnswerEvents,
        linesOf_sendValueEvents, linesOf_nil]
    · simp [disconnect_data, disconnect_longOp, linesOf_disconnect,
        linesOf_cons, linesOf_append, linesOf_logAnswerEvents,
        linesOf_sendValueEvents, linesOf_nil]

theorem idxNl_split (l : Str) (i : Nat) (h : Conn.idxNl l = some i) :
    l.take (i + 1) = l.take i ++ ['\n'] ∧ '\n' ∉ l.take i := by
  induction l generalizing i with
  | nil => simp [Conn.idxNl] at h
  | cons ch rest ih =>
    by_cases hc : ch = '\n'
    · subst hc
      simp [Conn.idxNl] at h
      subst h
      simp
    · simp [Conn.idxNl, hc] at h
      obtain ⟨j, hj, hji⟩ := h
      subst hji
      obtain ⟨h1, h2⟩ := ih j hj
      refine ⟨?_, ?_⟩
      · simp [List.take_succ_cons, h1]
      · simp [List.take_succ_cons, h2]
        exact fun hcon => hc hcon.symm

theorem onDataLineReceived_data (parse : Str → ScpiValue) (c : Conn) (d : Str) :
    (c.onDataLineReceived parse d).1.data = c.data :=
  (onDataLineReceived_fields parse c d).1

theorem onDataLineReceived_longOp (parse : Str → ScpiValue) (c : Conn) (d : Str) :
    (c.onDataLineReceived parse d).1.longOperation = c.longOperation :=
  (onDataLineReceived_fields parse c d).2.1

theorem onDataLineReceived_lines (parse : Str → ScpiValue) (c : Conn) (d : Str) :
    linesOf (c.onDataLineReceived parse d).2 = [d] :=
  (onDataLineReceived_fields parse c d).2.2

theorem armIfData_snd (r : Conn × List Event) : (Conn.armIfData r).2 = r.2 := by
  unfold Conn.armIfData
  split <;> simp

theorem armIfData_data (r : Conn × List Event) :
    (Conn.armIfData r).1.data = r.1.data := by
  unfold Conn.armIfData
  split <;> simp

theorem armIfData_longOp (r : Conn × List Event) :
    (Conn.armIfData r).1.longOperation = r.1.longOperation := by
  unfold Conn.armIfData
  split <;> simp

theorem onDataAppend_spec (parse : Str → ScpiValue) (c : Conn) (d : Str) :
    (c.onDataAppend parse d).1.longOperation = c.longOperation ∧
    (linesOf (c.onDataAppend parse d).2).flatten ++ bufOf (c.onDataAppend parse d).1
      = bufOf c ++ d ∧
    (∀ l ∈ linesOf (c.onDataAppend parse d).2, ∃ p, l = p ++ ['\n'] ∧ '\n' ∉ p) ∧
    (linesOf (c.onDataAppend parse d).2).length ≤ 1 := by
  unfold Conn.onDataAppend
  rcases hix : Conn.idxNl (bufOf c ++ d) with _ | i
  · simp only [hix]
    simp [armIfData_snd, armIfData_data, armIfData_longOp, linesOf_nil, bufOf]
  · simp only [hix]
    obtain ⟨hw1, hw2⟩ := idxNl_split (bufOf c ++ d) i hix
    have hsplit := List.take_append_drop (i + 1) (bufOf c ++ d)
    simp only [armIfData_snd, armIfData_data, armIfData_longOp,
      onDataLineReceived_data, onDataLineReceived_longOp, onDataLineReceived_lines]
    refine ⟨by simp, ?_, ?_, by simp⟩
    · by_cases hrest : List.drop (i + 1) (bufOf c ++ d) = []
      · have hlen : (bufOf c ++ d).length ≤ i + 1 := List.drop_eq_nil_iff.mp hrest
        rw [hrest, List.append_nil] at hsplit
        simp only [bufOf] at hlen hsplit ⊢
        simp only [List.length_append] at hlen
        simp [armIfData_data, onDataLineReceived_data, hlen, hsplit]
      · have hlen : ¬(bufOf c ++ d).length ≤ i + 1 :=
          fun hco => hrest (List.drop_eq_nil_iff.mpr hco)
        simp only [bufOf] at hlen hsplit ⊢
        simp only [List.length_append] at hlen
        simp [armIfData_data, onDataLineReceived_data, hlen, hsplit]
    · intro l hl
      simp only [List.mem_singleton] at hl
      subst hl
      exact ⟨(bufOf c ++ d).take i, hw1, hw2⟩

theorem onData_noLongOp (mkUpload : Str → LongOperation)
    (opOnData : LongOperation → Str → LongOperation)
    (parse : Str → ScpiValue) (c : Conn) (d : Str)
    (h1 : c.longOperation = none)
    (h2 : ¬(c.data = none ∧ d.head? = some '#')) :
    c.onData mkUpload opOnData parse d
      = Conn.onDataAppend parse { c with dataTimeoutPending := false } d := by
  unfold Conn.onData
  simp [h1, h2]

theorem bufOf_clearTimer (c : Conn) :
    bufOf { c with dataTimeoutPending := false } = bufOf c := by
  simp [bufOf]

theorem runChunks_spec (mkUpload : Str → LongOperation)
    (opOnData : LongOperation → Str → LongOperation)
    (parse : Str → ScpiValue) (c : Conn) (chunks : List Str)
    (h1 : c.longOperation = none)
    (h2 : safeChunks mkUpload opOnData parse c chunks = true) :
    (runChunks mkUpload opOnData parse c chunks).1.longOperation = none ∧
    (linesOf (runChunks mkUpload opOnData parse c chunks).2).flatten
        ++ bufOf (runChunks mkUpload opOnData parse c chunks).1
      = bufOf c ++ chunks.flatten ∧
    (∀ l ∈ linesOf (runChunks mkUpload opOnData parse c chunks).2,
        ∃ p, l = p ++ ['\n'] ∧ '\n' ∉ p) ∧
    (linesOf (runChunks mkUpload opOnData parse c chunks).2).length
      ≤ chunks.length := by
  induction chunks generalizing c with
  | nil => simpa [runChunks, linesOf_nil] using h1
  | cons d ds ih =>
    unfold safeChunks at h2
    rw [Bool.and_eq_true] at h2
    obtain ⟨h2a, h2b⟩ := h2
    have hno : ¬(c.data = none ∧ d.head? = some '#') := by
      have := h2a
      simp at this
      tauto
    have hstep := onData_noLongOp mkUpload opOnData parse c d h1 hno
    have hspec := onDataAppend_spec parse { c with dataTimeoutPending := false } d
    have hop : (Conn.onDataAppend parse { c with dataTimeoutPending := false } d).1.longOperation
        = none := by
      rw [hspec.1]
      exact h1
    rw [hstep] at h2b
    have hih := ih (Conn.onDataAppend parse { c with dataTimeoutPending := false } d).1 hop h2b
    unfold runChunks
    rw [hstep]
    refine ⟨hih.1, ?_, ?_, ?_⟩
    · rw [linesOf_append, List.flatten_append, List.append_assoc, hih.2.1,
        ← List.append_assoc, hspec.2.1, bufOf_clearTimer, List.flatten_cons,
        List.append_assoc]
    · intro l hl
      rw [linesOf_append, List.mem_append] at hl
      rcases hl with hl | hl
      · exact hspec.2.2.1 l hl
      · exact hih.2.2.1 l hl
    · rw [linesOf_append, List.length_append, List.length_cons]
      have := hspec.2.2.2
      have := hih.2.2.2
      omega

theorem linesOf_flushData (c : Conn) : linesOf (c.flushData).2 = [] := by
  unfold Conn.flushData
  rcases c.longOperation with _ | op <;> rcases hd : c.data with _ | b <;>
    simp [hd, linesOf_nil, linesOf_cons, linesOf_append,
      linesOf_logAnswerEvents] <;>
    split <;>
    simp [linesOf_nil, linesOf_cons, linesOf_append, linesOf_logAnswerEvents]

theorem flushData_flush (c : Conn) (b : Str) (hop : c.longOperation = none)
    (hd : c.data = some b) (hb : b ≠ []) :
    (c.flushData).2 = Conn.logAnswerEvents c b ∧
    (c.flushData).1.data = none ∧
    (c.flushData).1.dataTimeoutPending = false := by
  unfold Conn.flushData
  simp [hop, hd, hb, Conn.logAnswerEvents]

/-- C1 counterexample: with no LongOperation active, the single chunk
`"A\nB\n"` contains two terminators but `onData` dispatches only the first
line `"A\n"` through the completed-line path, retaining `"B\n"` in the
buffer; and the subsequent timer force-flush (`flushData`) emits the
remaining buffer only to the answer log, never through the completed-line
dispatch (`onDataLineReceived`). -/
theorem c1_counterexample :
    linesOf (connectedConn.onData mkUploadStub opOnDataStub parseAsString
        (str "A\nB\n")).2 = [str "A\n"] ∧
    (connectedConn.onData mkUploadStub opOnDataStub parseAsString
        (str "A\nB\n")).1.data = some (str "B\n") ∧
    linesOf ((connectedConn.onData mkUploadStub opOnDataStub parseAsString
        (str "A\nB\n")).1.flushData).2 = [] ∧
    Event.answerLine (str "B\n")
      ∈ ((connectedConn.onData mkUploadStub opOnDataStub parseAsString
          (str "A\nB\n")).1.flushData).2 := by
  decide

/-- C1 (amended): for all chunk sequences delivered to `onData` while no
LongOperation is active (and none is triggered), each `onData` call extracts
at most one line — everything up to and including the first terminator of the
buffer; lines are dispatched at most once and in arrival order, so that the
dispatched lines concatenated with the final buffer reproduce the
concatenated input, every dispatched line carries exactly one terminator at
its end, and at most one line is dispatched per chunk.  The timer force-flush
(`flushData`) never passes the remaining buffer through the completed-line
dispatch; it records it directly on the answer log and clears the buffer. -/
theorem c1_framing_amended (mkUpload : Str → LongOperation)
    (opOnData : LongOperation → Str → LongOperation)
    (parse : Str → ScpiValue) (c : Conn) (chunks : List Str)
    (h1 : c.longOperation = none)
    (h2 : safeChunks mkUpload opOnData parse c chunks = true) :
    ((runChunks mkUpload opOnData parse c chunks).1.longOperation = none ∧
     (linesOf (runChunks mkUpload opOnData parse c chunks).2).flatten
         ++ bufOf (runChunks mkUpload opOnData parse c chunks).1
       = bufOf c ++ chunks.flatten ∧
     (∀ l ∈ linesOf (runChunks mkUpload opOnData parse c chunks).2,
         ∃ p, l = p ++ ['\n'] ∧ '\n' ∉ p) ∧
     (linesOf (runChunks mkUpload opOnData parse c chunks).2).length
       ≤ chunks.length) ∧
    (∀ c' : Conn, linesOf (c'.flushData).2 = []) ∧
    (∀ (c' : Conn) (b : Str), c'.longOperation = none → c'.data = some b →
        b ≠ [] →
        (c'.flushData).2 = Conn.logAnswerEvents c' b ∧
        (c'.flushData).1.data = none) := by
  refine ⟨runChunks_spec mkUpload opOnData parse c chunks h1 h2,
    linesOf_flushData, ?_⟩
  intro c' b hop hd hb
  exact ⟨(flushData_flush c' b hop hd hb).1, (flushData_flush c' b hop hd hb).2.1⟩

/-- C1 witness: the amended framing theorem applied to the concrete run
`["A\n", "B"]` from a fresh connected state. -/
theorem c1_framing_amended_witness :
    (connectedConn.longOperation = none ∧
     safeChunks mkUploadStub opOnDataStub parseAsString connectedConn
        [str "A\n", str "B"] = true) ∧
    ((runChunks mkUploadStub opOnDataStub parseAsString connectedConn
        [str "A\n", str "B"]).1.longOperation = none ∧
     (linesOf (runChunks mkUploadStub opOnDataStub parseAsString connectedConn
         [str "A\n", str "B"]).2).flatten
         ++ bufOf (runChunks mkUploadStub opOnDataStub parseAsString
             connectedConn [str "A\n", str "B"]).1
       = bufOf connectedConn ++ [str "A\n", str "B"].flatten ∧
     (∀ l ∈ linesOf (runChunks mkUploadStub opOnDataStub parseAsString
         connectedConn [str "A\n", str "B"]).2,
         ∃ p, l = p ++ ['\n'] ∧ '\n' ∉ p) ∧
     (linesOf (runChunks mkUploadStub opOnDataStub parseAsString connectedConn
         [str "A\n", str "B"]).2).length ≤ [str "A\n", str "B"].length) ∧
    (∀ c' : Conn, linesOf (c'.flushData).2 = []) ∧
    (∀ (c' : Conn) (b : Str), c'.longOperation = none → c'.data = some b →
        b ≠ [] →
        (c'.flushData).2 = Conn.logAnswerEvents c' b ∧
        (c'.flushData).1.data = none) :=
  ⟨⟨by decide, by decide⟩,
    c1_framing_amended mkUploadStub opOnDataStub parseAsString connectedConn
      [str "A\n", str "B"] (by decide) (by decide)⟩

/-- C2 counterexample: with a done `FileUpload` holding the terminated-line
surplus `"OK\n"`, the housekeeping tick merely stores the surplus into the
frame buffer — no line is extracted and no coalescing timer is armed — while
the `onData` detection path on the same state does re-enter framing and
dispatches the line. -/
theorem c2_counterexample :
    (Conn.housekeeping doneUploadConn).1.data = some (str "OK\n") ∧
    linesOf (Conn.housekeeping doneUploadConn).2 = [] ∧
    (Conn.housekeeping doneUploadConn).1.dataTimeoutPending = false ∧
    linesOf (doneUploadConn.onData mkUploadStub opOnDataStub parseAsString
        (str "")).2 = [str "OK\n"] := by
  decide

/-- C2 (amended): when the active LongOperation reports done with surplus
bytes, `onData` clears it, notifies completion, and re-enters the framing
tail on the surplus (line extraction and timer arming included); the
housekeeping tick instead clears it, notifies completion, and writes the
surplus verbatim into the frame buffer — without line extraction and without
arming the coalescing timer (the surplus is only framed by a later
`onData`). -/
theorem c2_surplus_amended (mkUpload : Str → LongOperation)
    (opOnData : LongOperation → Str → LongOperation)
    (parse : Str → ScpiValue) :
    (∀ (c : Conn) (d s : Str) (op : LongOperation),
        c.longOperation = some op →
        (opOnData op d).done = true →
        (opOnData op d).dataSurplus = some s →
        c.onData mkUpload opOnData parse d
          = ((Conn.onDataAppend parse
                { c with
                    dataTimeoutPending := false
                    longOperation := none }
                s).1,
             Conn.sendValueEvents c .doneEntry
               ++ (Conn.onDataAppend parse
                    { c with
                        dataTimeoutPending := false
                        longOperation := none } s).2)) ∧
    (∀ (c : Conn) (op : LongOperation),
        c.longOperation = some op → op.done = true →
        c.housekeeping
          = (({ c with
                  longOperation := none
                  data := op.dataSurplus } : Conn),
             Conn.sendValueEvents c .doneEntry) ∧
        linesOf (c.housekeeping).2 = [] ∧
        (c.housekeeping).1.dataTimeoutPending = c.dataTimeoutPending) := by
  constructor
  · intro c d s op hop hdone hsur
    unfold Conn.onData
    simp [hop, hdone, hsur, Conn.longOperationDone, Conn.sendValueEvents]
  · intro c op hop hdone
    have heq : c.housekeeping
        = (({ c with
                longOperation := none
                data := op.dataSurplus } : Conn),
           Conn.sendValueEvents c .doneEntry) := by
      unfold Conn.housekeeping
      simp [hop, hdone, Conn.longOperationDone, Conn.sendValueEvents]
    refine ⟨heq, ?_, ?_⟩
    · rw [heq]
      exact linesOf_sendValueEvents c .doneEntry
    · rw [heq]

/-- C2 witness: both surplus paths evaluated on the done `FileUpload` with
surplus `"OK\n"`. -/
theorem c2_surplus_amended_witness :
    (doneUploadConn.longOperation
        = some ⟨.fileUpload, true, some (str "OK\n"), false⟩ ∧
      (opOnDataStub ⟨.fileUpload, true, some (str "OK\n"), false⟩
          (str "")).done = true ∧
      (opOnDataStub ⟨.fileUpload, true, some (str "OK\n"), false⟩
          (str "")).dataSurplus = some (str "OK\n")) ∧
    doneUploadConn.onData mkUploadStub opOnDataStub parseAsString (str "")
      = ((Conn.onDataAppend parseAsString
            { doneUploadConn with
                dataTimeoutPending := false
                longOperation := none } (str "OK\n")).1,
         Conn.sendValueEvents doneUploadConn .doneEntry
           ++ (Conn.onDataAppend parseAsString
                { doneUploadConn with
                    dataTimeoutPending := false
                    longOperation := none } (str "OK\n")).2) ∧
    doneUploadConn.housekeeping
      = (({ doneUploadConn with
              longOperation := none
              data := some (str "OK\n") } : Conn),
         Conn.sendValueEvents doneUploadConn .doneEntry) :=
  ⟨⟨by decide, by decide, by decide⟩,
    (c2_surplus_amended mkUploadStub opOnDataStub parseAsString).1
      doneUploadConn (str "") (str "OK\n")
      ⟨.fileUpload, true, some (str "OK\n"), false⟩
      (by decide) (by decide) (by decide),
    ((c2_surplus_amended mkUploadStub opOnDataStub parseAsString).2
      doneUploadConn ⟨.fileUpload, true, some (str "OK\n"), false⟩
      (by decide) (by decide)).1⟩

theorem write_not_mem_logRequestEvents (c : Conn) (d w : Str) :
    Event.write w ∉ c.logRequestEvents d := by
  unfold Conn.logRequestEvents
  split <;> simp

theorem write_not_mem_logAnswerEvents (c : Conn) (d w : Str) :
    Event.write w ∉ c.logAnswerEvents d := by
  unfold Conn.logAnswerEvents
  split <;> simp

theorem answerLine_mem_logAnswerEvents (c : Conn) (d : Str) :
    Event.answerLine d ∈ c.logAnswerEvents d := by
  unfold Conn.logAnswerEvents
  split <;> simp

theorem send_not_connected (c : Conn) (cmd : Str) (opts : Option SendOptions)
    (h : c.state ≠ .CONNECTED ∨ c.communicationInterface = false) :
    c.send cmd opts
      = (c, (if opts = none ∨ (∃ o, opts = some o ∧ o.log = true)
              then c.logRequestEvents cmd else [])
            ++ c.logAnswerEvents (str "**ERROR: not connected\n")) := by
  unfold Conn.send
  rw [if_pos h]

theorem send_longOp_busy (c : Conn) (cmd : Str) (opts : Option SendOptions)
    (op : LongOperation)
    (hst : c.state = .CONNECTED) (hcomm : c.communicationInterface = true)
    (hop : c.longOperation = some op)
    (hopts : opts = none ∨ ∃ o, opts = some o ∧ o.longOperation = false) :
    c.send cmd opts
      = (c, (if opts = none ∨ (∃ o, opts = some o ∧ o.log = true)
              then c.logRequestEvents cmd else [])
            ++ c.logAnswerEvents
                (if op.kind = .fileUpload ∨ op.kind = .fileDownload then
                   str "**ERROR: file transfer in progress\n"
                 else str "**ERROR: another operation in progress\n")) := by
  unfold Conn.send
  rw [if_neg (by simp [hst, hcomm])]
  rw [if_pos ⟨hopts, by simp [hop]⟩]
  rw [hop]
  by_cases hk : op.kind = .fileUpload ∨ op.kind = .fileDownload <;> simp [hk]

/-- C3: from every state other than `IDLE`, `connect()` leaves the whole
connection unchanged (state, `errorCode` and `error` included), never
constructs or contacts a Transport, and reports only a local fault. -/
theorem c3_connect_guard (c : Conn) (kind : TransportKind)
    (h : c.state ≠ .IDLE) :
    c.connect kind = (c, [Event.localFault]) := by
  unfold Conn.connect
  rw [if_pos h]

/-- C3 witness: `connect()` invoked while `CONNECTING`. -/
theorem c3_connect_guard_witness :
    ({ initialConn with state := .CONNECTING } : Conn).state
        ≠ ConnectionState.IDLE ∧
    ({ initialConn with state := .CONNECTING } : Conn).connect .ethernet
      = ({ initialConn with state := .CONNECTING }, [Event.localFault]) :=
  ⟨by decide,
    c3_connect_guard { initialConn with state := .CONNECTING } .ethernet
      (by decide)⟩

/-- C4: `send` while not `CONNECTED` (or without Transport) produces the
synthetic not-connected error line and never writes to the Transport; `send`
while a LongOperation is active and the command is not marked
long-operation-initiating produces the synthetic error line distinguishing a
file transfer from another kind of operation and never writes to the
Transport. -/
theorem c4_send_guard (c : Conn) (cmd : Str) (opts : Option SendOptions) :
    ((c.state ≠ .CONNECTED ∨ c.communicationInterface = false) →
        Event.answerLine (str "**ERROR: not connected\n") ∈ (c.send cmd opts).2 ∧
        (c.send cmd opts).1 = c ∧
        ∀ w, Event.write w ∉ (c.send cmd opts).2) ∧
    (∀ op : LongOperation,
        c.state = .CONNECTED → c.communicationInterface = true →
        c.longOperation = some op →
        (opts = none ∨ ∃ o, opts = some o ∧ o.longOperation = false) →
        Event.answerLine
            (if op.kind = .fileUpload ∨ op.kind = .fileDownload then
               str "**ERROR: file transfer in progress\n"
             else str "**ERROR: another operation in progress\n")
          ∈ (c.send cmd opts).2 ∧
        (c.send cmd opts).1 = c ∧
        ∀ w, Event.write w ∉ (c.send cmd opts).2) := by
  constructor
  · intro h
    rw [send_not_connected c cmd opts h]
    refine ⟨?_, rfl, ?_⟩
    · exact List.mem_append_right _ (answerLine_mem_logAnswerEvents c _)
    · intro w
      simp only [List.mem_append]
      rintro (hw | hw)
      · revert hw
        split
        · exact write_not_mem_logRequestEvents c cmd w
        · simp
      · exact write_not_mem_logAnswerEvents c _ w hw
  · intro op hst hcomm hop hopts
    rw [send_longOp_busy c cmd opts op hst hcomm hop hopts]
    refine ⟨?_, rfl, ?_⟩
    · exact List.mem_append_right _ (answerLine_mem_logAnswerEvents c _)
    · intro w
      simp only [List.mem_append]
      rintro (hw | hw)
      · revert hw
        split
        · exact write_not_mem_logRequestEvents c cmd w
        · simp
      · exact write_not_mem_logAnswerEvents c _ w hw

/-- C4 witness: both guards evaluated — a send from `IDLE`, and a send while
a `FileUpload` is active. -/
theorem c4_send_guard_witness :
    (Event.answerLine (str "**ERROR: not connected\n")
        ∈ (initialConn.send (str "CMD") none).2 ∧
      (initialConn.send (str "CMD") none).1 = initialConn ∧
      ∀ w, Event.write w ∉ (initialConn.send (str "CMD") none).2) ∧
    (Event.answerLine (str "**ERROR: file transfer in progress\n")
        ∈ (doneUploadConn.send (str "CMD") none).2 ∧
      (doneUploadConn.send (str "CMD") none).1 = doneUploadConn ∧
      ∀ w, Event.write w ∉ (doneUploadConn.send (str "CMD") none).2) :=
  ⟨(c4_send_guard initialConn (str "CMD") none).1 (Or.inl (by decide)),
    (c4_send_guard doneUploadConn (str "CMD") none).2
      ⟨.fileUpload, true, some (str "OK\n"), false⟩
      (by decide) (by decide) (by decide) (Or.inl rfl)⟩

/-- C5: `disconnect()` from a connected or connecting state with a live
Transport immediately enters `DISCONNECTING` without writing bytes, and in
the `DISCONNECTING` state every `send` call — whatever the command or
options — writes nothing to the Transport. -/
theorem c5_disconnecting_blocks_send :
    (∀ c : Conn, c.state ≠ .IDLE → c.communicationInterface = true →
        (c.disconnect).1.state = .DISCONNECTING ∧
        ∀ w, Event.write w ∉ (c.disconnect).2) ∧
    (∀ (c : Conn) (cmd : Str) (opts : Option SendOptions),
        c.state = .DISCONNECTING →
        ∀ w, Event.write w ∉ (c.send cmd opts).2) := by
  constructor
  · intro c hst hcomm
    unfold Conn.disconnect
    rw [if_neg (by simp [hst, hcomm])]
    exact ⟨rfl, by simp⟩
  · intro c cmd opts hst w
    rw [send_not_connected c cmd opts (Or.inl (by simp [hst]))]
    simp only [List.mem_append]
    rintro (hw | hw)
    · revert hw
      split
      · exact write_not_mem_logRequestEvents c cmd w
      · simp
    · exact write_not_mem_logAnswerEvents c _ w hw

/-- C5 witness: disconnecting from `CONNECTED` and sending while
`DISCONNECTING`. -/
theorem c5_disconnecting_blocks_send_witness :
    ((connectedConn.disconnect).1.state = ConnectionState.DISCONNECTING ∧
      ∀ w, Event.write w ∉ (connectedConn.disconnect).2) ∧
    ∀ w, Event.write w
      ∉ (({ connectedConn with state := .DISCONNECTING } : Conn).send
          (str "CMD") none).2 :=
  ⟨c5_disconnecting_blocks_send.1 connectedConn (by decide) (by decide),
    c5_disconnecting_blocks_send.2 { connectedConn with state := .DISCONNECTING }
      (str "CMD") none (by decide)⟩

/-- C6 counterexample: when the identification timeout fires on a connected
connection, the code calls `setError(ConnectionErrorCode.NONE, "Timeout (no
response to IDN query).")` — the error code remains `NONE` even though the
claim requires a non-NONE error state; only the error message is set before
the transition toward `DISCONNECTING`. -/
theorem c6_counterexample :
    ((({ connectedConn with idnExpected := true, idnTimeoutPending := true }
        : Conn).idnTimeoutFire).1.errorCode = ConnectionErrorCode.NONE) ∧
    ((({ connectedConn with idnExpected := true, idnTimeoutPending := true }
        : Conn).idnTimeoutFire).1.state = ConnectionState.DISCONNECTING) ∧
    ((({ connectedConn with idnExpected := true, idnTimeoutPending := true }
        : Conn).idnTimeoutFire).1.error
      = some (str "Timeout (no response to IDN query).")) := by
  decide

/-- C6 (amended): if the pending identification timeout fires on a
`CONNECTED` connection with a live Transport, the connection transitions
toward `DISCONNECTING` exactly once (the one-shot timer is no longer pending
afterwards), with the timeout error message `"Timeout (no response to IDN
query)."` set before disconnecting while `errorCode` remains `NONE`; and
`sendIdn` arms exactly this expectation and timer. -/
theorem c6_idn_timeout_amended (c : Conn)
    (hst : c.state = .CONNECTED) (hcomm : c.communicationInterface = true)
    (hpend : c.idnTimeoutPending = true) :
    (c.idnTimeoutFire).1.state = .DISCONNECTING ∧
    (c.idnTimeoutFire).1.error
        = some (str "Timeout (no response to IDN query).") ∧
    (c.idnTimeoutFire).1.errorCode = .NONE ∧
    (c.idnTimeoutFire).1.idnTimeoutPending = false ∧
    (c.idnTimeoutFire).2 = [Event.transportDisconnect] ∧
    (∀ c' : Conn, c'.state = .CONNECTED → c'.communicationInterface = true →
        (c'.sendIdn).1.idnExpected = true ∧
        (c'.sendIdn).1.idnTimeoutPending = true) := by
  refine ⟨?_, ?_, ?_, ?_, ?_, ?_⟩
  · unfold Conn.idnTimeoutFire Conn.disconnect
    rw [if_neg (by simp [hst, hcomm])]
  · unfold Conn.idnTimeoutFire Conn.disconnect
    rw [if_neg (by simp [hst, hcomm])]
  · unfold Conn.idnTimeoutFire Conn.disconnect
    rw [if_neg (by simp [hst, hcomm])]
  · unfold Conn.idnTimeoutFire Conn.disconnect
    rw [if_neg (by simp [hst, hcomm])]
  · unfold Conn.idnTimeoutFire Conn.disconnect
    rw [if_neg (by simp [hst, hcomm])]
  · intro c' hst' hcomm'
    unfold Conn.sendIdn
    rw [if_neg (by simp [hst']), if_neg (by simp [hcomm'])]
    exact ⟨rfl, rfl⟩

/-- C6 witness: the amended theorem at the connected state with the timeout
pending. -/
theorem c6_idn_timeout_amended_witness :
    (({ connectedConn with idnExpected := true, idnTimeoutPending := true }
        : Conn).state = ConnectionState.CONNECTED ∧
      ({ connectedConn with idnExpected := true, idnTimeoutPending := true }
        : Conn).communicationInterface = true ∧
      ({ connectedConn with idnExpected := true, idnTimeoutPending := true }
        : Conn).idnTimeoutPending = true) ∧
    ((({ connectedConn with idnExpected := true, idnTimeoutPending := true }
        : Conn).idnTimeoutFire).1.state = ConnectionState.DISCONNECTING ∧
      (({ connectedConn with idnExpected := true, idnTimeoutPending := true }
        : Conn).idnTimeoutFire).1.error
          = some (str "Timeout (no response to IDN query).") ∧
      (({ connectedConn with idnExpected := true, idnTimeoutPending := true }
        : Conn).idnTimeoutFire).1.errorCode = ConnectionErrorCode.NONE ∧
      (({ connectedConn with idnExpected := true, idnTimeoutPending := true }
        : Conn).idnTimeoutFire).1.idnTimeoutPending = false ∧
      (({ connectedConn with idnExpected := true, idnTimeoutPending := true }
        : Conn).idnTimeoutFire).2 = [Event.transportDisconnect] ∧
      (∀ c' : Conn, c'.state = .CONNECTED → c'.communicationInterface = true →
          (c'.sendIdn).1.idnExpected = true ∧
          (c'.sendIdn).1.idnTimeoutPending = true)) :=
  ⟨⟨by decide, by decide, by decide⟩,
    c6_idn_timeout_amended
      { connectedConn with idnExpected := true, idnTimeoutPending := true }
      (by decide) (by decide) (by decide)⟩

theorem tdisc_not_mem_logAnswerEvents (c : Conn) (d : Str) :
    Event.transportDisconnect ∉ c.logAnswerEvents d := by
  unfold Conn.logAnswerEvents
  split <;> simp

theorem tdisc_not_mem_sendValueEvents (c : Conn) (v : Val) :
    Event.transportDisconnect ∉ c.sendValueEvents v := by
  unfold Conn.sendValueEvents
  rcases c.callbackWindowId with _ | n
  · simp
  · split <;> simp

/-- C7: for every completed line received while identification is expected,
the connection cancels the identification timeout and clears the expectation
flag; if the value returned by the external parser is not a string it sets
the error message `"Invalid IDN value."` and disconnects, and if it is a
string it forwards the identification string to the instrument entity and
continues without disconnecting. -/
theorem c7_idn_line (parse : Str → ScpiValue) (c : Conn) (d : Str)
    (hidn : c.idnExpected = true)
    (hst : c.state = .CONNECTED) (hcomm : c.communicationInterface = true) :
    (c.onDataLineReceived parse d).1.idnExpected = false ∧
    (c.onDataLineReceived parse d).1.idnTimeoutPending = false ∧
    (∀ s, parse d = .string s →
        (c.onDataLineReceived parse d).1.state = .CONNECTED ∧
        (c.onDataLineReceived parse d).1.error = c.error ∧
        Event.setIdn s ∈ (c.onDataLineReceived parse d).2 ∧
        Event.transportDisconnect ∉ (c.onDataLineReceived parse d).2) ∧
    (parse d = .nonString →
        (c.onDataLineReceived parse d).1.state = .DISCONNECTING ∧
        (c.onDataLineReceived parse d).1.error
            = some (str "Invalid IDN value.") ∧
        Event.transportDisconnect ∈ (c.onDataLineReceived parse d).2) := by
  unfold Conn.onDataLineReceived
  rcases hp : parse d with s | _
  · simp only [hidn, if_pos]
    refine ⟨by trivial, by trivial, ?_, ?_⟩
    · intro s' hs'
      cases hs'
      refine ⟨hst, by trivial, by simp, ?_⟩
      intro hmem
      rcases List.mem_cons.mp hmem with h | h
      · cases h
      · rcases List.mem_append.mp h with h | h
        · rcases List.mem_append.mp h with h | h
          · exact tdisc_not_mem_logAnswerEvents c d h
          · exact tdisc_not_mem_sendValueEvents c _ h
        · simp at h
    · intro hco
      cases hco
  · simp only [hidn, if_pos]
    have hdc :
        ({ c with
            idnTimeoutPending := false
            idnExpected := false
            errorCode := ConnectionErrorCode.NONE
            error := some (str "Invalid IDN value.") } : Conn).disconnect
          = (({ c with
                idnTimeoutPending := false
                idnExpected := false
                errorCode := ConnectionErrorCode.NONE
                error := some (str "Invalid IDN value.")
                state := ConnectionState.DISCONNECTING } : Conn),
             [Event.transportDisconnect]) := by
      unfold Conn.disconnect
      rw [if_neg (by simp [hst, hcomm])]
    rw [hdc]
    refine ⟨by trivial, by trivial, ?_, ?_⟩
    · intro s' hs'
      cases hs'
    · intro _
      exact ⟨rfl, rfl, by simp⟩

/-- C7 witness: a line received while identification is expected, with a
parser that yields a string. -/
theorem c7_idn_line_witness :
    (({ connectedConn with idnExpected := true, idnTimeoutPending := true }
        : Conn).idnExpected = true ∧
      ({ connectedConn with idnExpected := true, idnTimeoutPending := true }
        : Conn).state = ConnectionState.CONNECTED ∧
      ({ connectedConn with idnExpected := true, idnTimeoutPending := true }
        : Conn).communicationInterface = true) ∧
    ((({ connectedConn with idnExpected := true, idnTimeoutPending := true }
        : Conn).onDataLineReceived parseAsString (str "FOO")).1.idnExpected
          = false ∧
      (({ connectedConn with idnExpected := true, idnTimeoutPending := true }
        : Conn).onDataLineReceived parseAsString
          (str "FOO")).1.idnTimeoutPending = false ∧
      (∀ s, parseAsString (str "FOO") = .string s →
        (({ connectedConn with idnExpected := true, idnTimeoutPending := true }
          : Conn).onDataLineReceived parseAsString (str "FOO")).1.state
            = ConnectionState.CONNECTED ∧
        (({ connectedConn with idnExpected := true, idnTimeoutPending := true }
          : Conn).onDataLineReceived parseAsString (str "FOO")).1.error
            = ({ connectedConn with idnExpected := true, idnTimeoutPending := true } : Conn).error ∧
        Event.setIdn s
          ∈ (({ connectedConn with idnExpected := true, idnTimeoutPending := true } : Conn).onDataLineReceived
              parseAsString (str "FOO")).2 ∧
        Event.transportDisconnect
          ∉ (({ connectedConn with idnExpected := true, idnTimeoutPending := true } : Conn).onDataLineReceived
              parseAsString (str "FOO")).2) ∧
      (parseAsString (str "FOO") = .nonString →
        (({ connectedConn with idnExpected := true, idnTimeoutPending := true }
          : Conn).onDataLineReceived parseAsString (str "FOO")).1.state
            = ConnectionState.DISCONNECTING ∧
        (({ connectedConn with idnExpected := true, idnTimeoutPending := true }
          : Conn).onDataLineReceived parseAsString (str "FOO")).1.error
            = some (str "Invalid IDN value.") ∧
        Event.transportDisconnect
          ∈ (({ connectedConn with idnExpected := true, idnTimeoutPending := true } : Conn).onDataLineReceived
              parseAsString (str "FOO")).2)) :=
  ⟨⟨by decide, by decide, by decide⟩,
    c7_idn_line parseAsString
      { connectedConn with idnExpected := true, idnTimeoutPending := true }
      (str "FOO") (by decide) (by decide) (by decide)⟩

/-- C8: `startLongOperation` (and `download`, which wraps it) fails fast with
no mutation of the connection unless the state is `CONNECTED` with a live
Transport and no LongOperation is already active; the failure distinguishes a
file transfer in progress from another kind of operation, and `download`
surfaces it as a synthetic answer line; only when all preconditions hold is
the new operation installed. -/
theorem c8_start_long_operation (c : Conn) (op : LongOperation) :
    ((c.state ≠ .CONNECTED ∨ c.communicationInterface = false) →
        c.startLongOperation op = .error (str "not connected") ∧
        (c.download op).1 = c ∧
        Event.answerLine (str "**ERROR: not connected\n")
          ∈ (c.download op).2) ∧
    (∀ cur : LongOperation,
        c.state = .CONNECTED → c.communicationInterface = true →
        c.longOperation = some cur →
        c.startLongOperation op
          = .error (if cur.kind = .fileUpload ∨ cur.kind = .fileDownload then
              str "file transfer in progress"
            else str "another operation in progress") ∧
        (c.download op).1 = c ∧
        Event.answerLine
            (if cur.kind = .fileUpload ∨ cur.kind = .fileDownload then
              str "**ERROR: file transfer in progress\n"
            else str "**ERROR: another operation in progress\n")
          ∈ (c.download op).2) ∧
    (c.state = .CONNECTED → c.communicationInterface = true →
        c.longOperation = none →
        c.startLongOperation op = .ok { c with longOperation := some op } ∧
        c.download op = ({ c with longOperation := some op }, [])) := by
  refine ⟨?_, ?_, ?_⟩
  · intro h
    have hs : c.startLongOperation op = .error (str "not connected") := by
      unfold Conn.startLongOperation
      rw [if_pos h]
    have hcat : str "**ERROR: " ++ str "not connected" ++ str "\n"
        = str "**ERROR: not connected\n" := by decide
    have hd : c.download op
        = (c, c.logAnswerEvents (str "**ERROR: not connected\n")) := by
      unfold Conn.download
      rw [hs]
      simp [hcat]
    rw [hd]
    exact ⟨hs, rfl, answerLine_mem_logAnswerEvents c _⟩
  · intro cur hst hcomm hcur
    by_cases hk : cur.kind = .fileUpload ∨ cur.kind = .fileDownload
    · have hs : c.startLongOperation op
          = .error (str "file transfer in progress") := by
        unfold Conn.startLongOperation
        rw [if_neg (by simp [hst, hcomm]), hcur]
        simp [hk]
      have hcat : str "**ERROR: " ++ str "file transfer in progress"
            ++ str "\n"
          = str "**ERROR: file transfer in progress\n" := by decide
      have hd : c.download op
          = (c, c.logAnswerEvents (str "**ERROR: file transfer in progress\n")) := by
        unfold Conn.download
        rw [hs]
        simp [hcat]
      rw [hd]
      rw [if_pos hk, if_pos hk]
      exact ⟨hs, rfl, answerLine_mem_logAnswerEvents c _⟩
    · have hs : c.startLongOperation op
          = .error (str "another operation in progress") := by
        unfold Conn.startLongOperation
        rw [if_neg (by simp [hst, hcomm]), hcur]
        simp [hk]
      have hcat : str "**ERROR: " ++ str "another operation in progress"
            ++ str "\n"
          = str "**ERROR: another operation in progress\n" := by decide
      have hd : c.download op
          = (c, c.logAnswerEvents
              (str "**ERROR: another operation in progress\n")) := by
        unfold Conn.download
        rw [hs]
        simp [hcat]
      rw [hd]
      rw [if_neg hk, if_neg hk]
      exact ⟨hs, rfl, answerLine_mem_logAnswerEvents c _⟩
  · intro hst hcomm hop
    have hs : c.startLongOperation op
        = .ok { c with longOperation := some op } := by
      unfold Conn.startLongOperation
      rw [if_neg (by simp [hst, hcomm]), hop]
    have hd : c.download op = ({ c with longOperation := some op }, []) := by
      unfold Conn.download
      rw [hs]
    exact ⟨hs, hd⟩

/-- C8 witness: all three branches — not connected, a file transfer already
active, and a successful installation. -/
theorem c8_start_long_operation_witness :
    (initialConn.startLongOperation ⟨.fileDownload, false, none, false⟩
        = .error (str "not connected") ∧
      (initialConn.download ⟨.fileDownload, false, none, false⟩).1
        = initialConn ∧
      Event.answerLine (str "**ERROR: not connected\n")
        ∈ (initialConn.download ⟨.fileDownload, false, none, false⟩).2) ∧
    (doneUploadConn.startLongOperation ⟨.fileDownload, false, none, false⟩
        = .error (str "file transfer in progress") ∧
      Event.answerLine (str "**ERROR: file transfer in progress\n")
        ∈ (doneUploadConn.download ⟨.fileDownload, false, none, false⟩).2) ∧
    (connectedConn.startLongOperation ⟨.fileDownload, false, none, false⟩
        = .ok { connectedConn with
            longOperation := some ⟨.fileDownload, false, none, false⟩ } ∧
      connectedConn.download ⟨.fileDownload, false, none, false⟩
        = ({ connectedConn with
              longOperation := some ⟨.fileDownload, false, none, false⟩ },
           [])) :=
  ⟨(c8_start_long_operation initialConn ⟨.fileDownload, false, none, false⟩).1
      (Or.inl (by decide)),
    ⟨((c8_start_long_operation doneUploadConn
        ⟨.fileDownload, false, none, false⟩).2.1
        ⟨.fileUpload, true, some (str "OK\n"), false⟩
        (by decide) (by decide) (by decide)).1,
      ((c8_start_long_operation doneUploadConn
        ⟨.fileDownload, false, none, false⟩).2.1
        ⟨.fileUpload, true, some (str "OK\n"), false⟩
        (by decide) (by decide) (by decide)).2.2⟩,
    (c8_start_long_operation connectedConn
        ⟨.fileDownload, false, none, false⟩).2.2
      (by decide) (by decide) (by decide)⟩

theorem flushData_longOp (c : Conn) : (c.flushData).1.longOperation = none := by
  unfold Conn.flushData
  rcases hop : c.longOperation with _ | op <;> rcases hd : c.data with _ | b <;>
    simp [hop, hd] <;> split <;> simp [hop]

/-- C9 counterexample: immediately after `abortLongOperation()` returns on a
connection holding an active (not-done) operation, the connection still holds
a LongOperation — the method calls `abort()` on the operation but never
clears `this.longOperation`. -/
theorem c9_counterexample :
    ((Conn.abortLongOperation
        { connectedConn with
            longOperation := some ⟨.other, false, none, false⟩ }).1.longOperation
      = some ⟨.other, false, none, true⟩) ∧
    ((Conn.abortLongOperation
        { connectedConn with
            longOperation := some ⟨.other, false, none, false⟩ }).1.longOperation
      ≠ none) := by
  decide

/-- C9 (amended): a connection holds at most one LongOperation (a single
optional field); it is installed by `startLongOperation` and the reference is
cleared by completion (`longOperationDone`, reached from `onData` or from the
housekeeping tick once `isDone()`) and by `flushData` (the disconnect path,
which aborts first); `abortLongOperation()` itself only signals `abort()` to
the operation and leaves the connection's reference in place. -/
theorem c9_long_operation_amended (c : Conn) (op : LongOperation)
    (h : c.longOperation = some op) :
    (c.abortLongOperation).1.longOperation = some op.abort ∧
    (c.abortLongOperation).2 = [Event.opAbort] ∧
    (c.flushData).1.longOperation = none ∧
    (op.done = true → (c.housekeeping).1.longOperation = none) ∧
    (∀ c' : Conn, (c'.longOperationDone).1.longOperation = none) := by
  refine ⟨?_, ?_, flushData_longOp c, ?_, fun c' => rfl⟩
  · unfold Conn.abortLongOperation
    rw [h]
  · unfold Conn.abortLongOperation
    rw [h]
  · intro hdone
    unfold Conn.housekeeping
    rw [h]
    simp [hdone, Conn.longOperationDone]

/-- C9 witness: the amended theorem on a connection holding a done upload. -/
theorem c9_long_operation_amended_witness :
    doneUploadConn.longOperation
        = some ⟨.fileUpload, true, some (str "OK\n"), false⟩ ∧
    ((doneUploadConn.abortLongOperation).1.longOperation
        = some ⟨.fileUpload, true, some (str "OK\n"), true⟩ ∧
      (doneUploadConn.abortLongOperation).2 = [Event.opAbort] ∧
      (doneUploadConn.flushData).1.longOperation = none ∧
      ((⟨.fileUpload, true, some (str "OK\n"), false⟩
          : LongOperation).done = true →
        (doneUploadConn.housekeeping).1.longOperation = none) ∧
      (∀ c' : Conn, (c'.longOperationDone).1.longOperation = none)) :=
  ⟨by decide,
    c9_long_operation_amended doneUploadConn
      ⟨.fileUpload, true, some (str "OK\n"), false⟩ (by decide)⟩

/-- C10 counterexample: a `send` whose options do not suppress logging, made
while tracing is disabled (`traceEnabled = false`, as after an acquire with
tracing off), records no request entry in the activity log even though the
options allow it — the request-log record is also gated on `traceEnabled`. -/
theorem c10_counterexample :
    Event.logRequest (str "CMD")
      ∉ (({ connectedConn with
            state := .DISCONNECTING
            traceEnabled := false } : Conn).send (str "CMD") none).2 := by
  decide

/-- C10 (amended): whenever the options do not suppress logging and tracing
is enabled, `send` records the request in the activity log as its very first
action — before the connected-state check and before the long-operation
check — so sends that then fail a precondition still appear in the activity
log as requests. -/
theorem c10_log_request_amended (c : Conn) (cmd : Str)
    (opts : Option SendOptions)
    (hopt : opts = none ∨ ∃ o, opts = some o ∧ o.log = true)
    (htr : c.traceEnabled = true) :
    ∃ rest, (c.send cmd opts).2
      = Event.requestLine cmd :: Event.logRequest cmd :: rest := by
  have hevs : (if opts = none ∨ (∃ o, opts = some o ∧ o.log = true)
      then c.logRequestEvents cmd else [])
      = Event.requestLine cmd :: Event.logRequest cmd :: [] := by
    rw [if_pos hopt]
    unfold Conn.logRequestEvents
    rw [if_pos htr]
  unfold Conn.send
  rw [hevs]
  split
  · exact ⟨_, rfl⟩
  · split
    · rcases hop : c.longOperation with _ | op
      · simp only [hop]
        exact ⟨[], rfl⟩
      · simp only [hop]
        split <;> exact ⟨_, rfl⟩
    · exact ⟨_, rfl⟩

/-- C10 witness: the amended theorem on a failing send (state
`DISCONNECTING`) with tracing on and default options. -/
theorem c10_log_request_amended_witness :
    (({ connectedConn with state := .DISCONNECTING } : Conn).traceEnabled
        = true) ∧
    ∃ rest,
      (({ connectedConn with state := .DISCONNECTING } : Conn).send
          (str "CMD") none).2
        = Event.requestLine (str "CMD") :: Event.logRequest (str "CMD")
            :: rest :=
  ⟨by decide,
    c10_log_request_amended { connectedConn with state := .DISCONNECTING }
      (str "CMD") none (Or.inl rfl) (by decide)⟩
